import Mathlib

/-!
Shallow embedding of the product controller of `pos-BE`
(`src/controllers/product.js` style module: `getProducts`,
`getProductImageById`, `createProduct`, `editProductById`,
`deleteProductById`) over a pure model of the Sequelize entity store.

The store holds Product, Category and Variant rows plus the
Product↔Category link table.  Request handlers become pure functions
`Store → Store × Except Err _`; the `sequelize.transaction` wrapper is
modelled by returning the *original* store whenever the transaction body
raises (rollback).  Images are abstracted to `Nat` payloads and the
external `sharp` normalizer to a caller-supplied `Nat → Option Nat`
(with `none` = normalization failure).
-/

namespace PosBE

/-- A structured error: the `ResponseError(message, statusCode)` pairs the
controller raises (plus the 500-family for crashes of external calls). -/
structure Err where
  message : String
  status : Nat
deriving DecidableEq, Repr

/-- `new ResponseError('invalid categoryId', 400)`. -/
def invalidCategoryErr : Err := ⟨"invalid categoryId", 400⟩

/-- `new ResponseError('invalid variant id', 400)`. -/
def invalidVariantErr : Err := ⟨"invalid variant id", 400⟩

/-- `new ResponseError('no data provided', 400)`. -/
def noDataErr : Err := ⟨"no data provided", 400⟩

/-- `new ResponseError('product not found', 404)`. -/
def productNotFoundErr : Err := ⟨"product not found", 404⟩

/-- The TypeError raised by `sharp(req.file.buffer)` when `req.file` is
absent (`createProduct` dereferences it unconditionally); surfaces as a
500-family internal error. -/
def sharpFileErr : Err := ⟨"cannot read buffer of missing upload", 500⟩

/-- A failure of the external image normalizer (`sharp(...).png().toBuffer()`
rejecting); surfaces as a 500-family internal error. -/
def sharpNormErr : Err := ⟨"image normalization failed", 500⟩

/-- The not-found error kind is the 404 status family (`'product not found'`,
`'product image not found'`); 400 errors are the bad-input / invalid-reference
family. -/
def Err.isNotFound (e : Err) : Bool := e.status = 404

/-- A `Products` row: id, name, description, image blob, isActive flag and
timestamps (image blobs abstracted to `Nat`). -/
structure Product where
  id : Nat
  name : String
  description : String
  image : Option Nat
  isActive : Bool
  createdAt : Nat
  updatedAt : Nat
deriving DecidableEq, Repr

/-- A `Categories` row (image omitted: never read by this controller). -/
structure Category where
  id : Nat
  name : String
deriving DecidableEq, Repr

/-- A `Variants` row: id, name, price, stock and the `productId` foreign key
set by the `setVariants` / `addVariants` association calls. -/
structure Variant where
  id : Nat
  name : String
  price : Int
  stock : Int
  productId : Option Nat
deriving DecidableEq, Repr

/-- The entity store: the tables this controller touches, plus autoincrement
counters for fresh primary keys. -/
structure Store where
  products : List Product
  categories : List Category
  variants : List Variant
  productCategories : List (Nat × Nat)
  nextProductId : Nat
  nextVariantId : Nat
deriving DecidableEq, Repr

/-- Database well-formedness: primary keys are unique per table. -/
def Store.WF (s : Store) : Prop :=
  (s.products.map (fun p => p.id)).Nodup ∧
  (s.categories.map (fun c => c.id)).Nodup ∧
  (s.variants.map (fun v => v.id)).Nodup

instance (s : Store) : Decidable s.WF := by
  unfold Store.WF; infer_instance

/-- One element of `req.body.variants`: `id` may be absent (create intent)
or present (update intent); only `name`, `price`, `stock` are ever written. -/
structure VariantInput where
  id : Option Nat
  name : String
  price : Int
  stock : Int
deriving DecidableEq, Repr

/-- JS truthiness of `variant?.id`: `undefined` and `0` are falsy. -/
def truthyId : Option Nat → Bool
  | none => false
  | some n => n ≠ 0

/-- The mutation request body (`req.body` after JSON parsing).  Each field is
optional; `image` is not a body field — it is injected from the uploaded
file by the handlers themselves. -/
structure Body where
  name : Option String
  description : Option String
  isActive : Option Bool
  createdAt : Option Nat
  categoryId : Option (List Nat)
  variants : Option (List VariantInput)
deriving DecidableEq, Repr

/-- `Object.keys(req.body).length === 0` for a body that was not augmented
with an image key. -/
def Body.isEmpty (b : Body) : Bool :=
  b.name.isNone && b.description.isNone && b.isActive.isNone &&
  b.createdAt.isNone && b.categoryId.isNone && b.variants.isNone

/-- The parsed `req.query` of `getProducts`. `isPaginated` is the truth of
`req.query.isPaginated !== 'false'`. -/
structure Query where
  name : Option String
  categoryId : Option Nat
  sortBy : Option String
  orderBy : Option String
  isPaginated : Bool
  page : Option Nat
  perPage : Option Nat
deriving DecidableEq, Repr

/-- `+req.query.page || 1`. -/
def pageOf (q : Query) : Nat :=
  match q.page with
  | some p => if p = 0 then 1 else p
  | none => 1

/-- `+req.query.perPage || 5`. -/
def perPageOf (q : Query) : Nat :=
  match q.perPage with
  | some p => if p = 0 then 5 else p
  | none => 5

/-- Boolean substring test on character lists (SQL `LIKE '%name%'`). -/
def substrOf (n : List Char) : List Char → Bool
  | [] => n.isPrefixOf []
  | c :: t => n.isPrefixOf (c :: t) || substrOf n t

/-- `where.name = { [Op.like]: `%name%` }`, guarded by `if (name)` (an empty
string is falsy, hence no filter); `LIKE` matches case-insensitively. -/
def matchesName (qn : Option String) (p : Product) : Bool :=
  match qn with
  | none => true
  | some n => if n = "" then true else substrOf n.toLower.toList p.name.toLower.toList

/-- Whether the link table associates product `pid` with category `cid`. -/
def linkedTo (s : Store) (pid cid : Nat) : Bool :=
  s.productCategories.contains (pid, cid)

/-- `(SELECT MAX(price) FROM Variants WHERE Variants.productId = Product.id)`:
`NULL` (here `none`) when the product has no variants. -/
def maxVariantPrice (s : Store) (pid : Nat) : Option Int :=
  ((s.variants.filter (fun v => v.productId = some pid)).map (fun v => v.price)).max?

/-- Modelled from the spec: the store's `ORDER BY` over the nullable price
key places a NULL key below every numeric value, independent of direction
(ascending puts NULL rows first, descending puts them last). -/
def nullLowLe : Option Int → Option Int → Bool
  | none, _ => true
  | some _, none => false
  | some a, some b => a ≤ b

/-- `orderBy || 'DESC'` read as a direction (the SQL keyword is accepted in
either case, folded here to its two spellings). -/
def isAsc (q : Query) : Bool :=
  q.orderBy.getD "DESC" = "ASC" || q.orderBy.getD "DESC" = "asc"

/-- The ordering key: the per-product variant price maximum when
`sortBy === 'price'`, otherwise the `sortBy || 'updatedAt'` column (only the
default `updatedAt` column is embedded here). -/
def sortKey (s : Store) (q : Query) (p : Product) : Option Int :=
  if q.sortBy = some "price" then maxVariantPrice s p.id
  else some (Int.ofNat p.updatedAt)

/-- The row comparison the ORDER BY clause induces. -/
def rowLe (s : Store) (q : Query) (a b : Product) : Bool :=
  if isAsc q then nullLowLe (sortKey s q a) (sortKey s q b)
  else nullLowLe (sortKey s q b) (sortKey s q a)

/-- Insertion step of the `ORDER BY` evaluation. -/
def orderInsert (le : Product → Product → Bool) (x : Product) :
    List Product → List Product
  | [] => [x]
  | y :: ys => if le x y then x :: y :: ys else y :: orderInsert le x ys

/-- The `ORDER BY` clause: stable sort of the result rows under the row
comparison (insertion sort, executable). -/
def orderRows (le : Product → Product → Bool) : List Product → List Product
  | [] => []
  | x :: xs => orderInsert le x (orderRows le xs)

/-- `limit` / `offset` when `isPaginated !== 'false'`. -/
def paginate (q : Query) (l : List Product) : List Product :=
  if q.isPaginated then (l.drop ((pageOf q - 1) * perPageOf q)).take (perPageOf q) else l

/-- The list response: rows (image excluded), `total_data`, and the page
metadata that is attached only when pagination is enabled. -/
structure ListResult where
  data : List Product
  total_data : Nat
  total_page : Option Nat
  current_page : Option Nat
  per_page : Option Nat
deriving DecidableEq, Repr

/-- Shared tail of both `getProducts` branches: filter by name, order, slice,
strip image bytes, and run the matching `count` query over the same filter. -/
def buildList (s : Store) (q : Query) (pool : List Product) : ListResult :=
  let filtered := pool.filter (matchesName q.name)
  let sorted := orderRows (rowLe s q) filtered
  let data := (paginate q sorted).map (fun p => { p with image := none })
  let total := filtered.length
  if q.isPaginated then
    { data := data, total_data := total,
      total_page := some ((total + perPageOf q - 1) / perPageOf q),
      current_page := some (pageOf q), per_page := some (perPageOf q) }
  else
    { data := data, total_data := total,
      total_page := none, current_page := none, per_page := none }

/-- `getProducts`: when `categoryId` is supplied, `Category.findByPk` must
resolve (else `'invalid categoryId'`, 400) and both the row query and the
count run through the category's association (`categoryData.getProducts`,
`categoryData.countProducts`); otherwise the unscoped table is used. -/
def getProducts (s : Store) (q : Query) : Except Err ListResult :=
  match q.categoryId with
  | some cid =>
    if s.categories.any (fun c => c.id = cid) then
      Except.ok (buildList s q (s.products.filter (fun p => linkedTo s p.id cid)))
    else Except.error invalidCategoryErr
  | none => Except.ok (buildList s q s.products)

/-! ### Mutation handlers -/

/-- `Category.findAll({ attributes: ['id'], where: { id: list } })`: the
category rows whose id occurs in the supplied list (each row once — a SQL
`IN` query returns distinct rows, so duplicates in the list collapse). -/
def foundCategories (cats : List Category) (l : List Nat) : List Category :=
  cats.filter (fun c => l.contains c.id)

/-- `productData.setCategories(req.body.categoryId)`: replace the product's
full category link set with the supplied ids. -/
def linkCategories (pid : Nat) (l : List Nat) (s : Store) : Store :=
  { s with productCategories :=
      s.productCategories.filter (fun pc => pc.1 ≠ pid) ++ l.map (fun c => (pid, c)) }

/-- The category block shared by `createProduct` and `editProductById`
(lines guarded by `req.body?.categoryId && req.body.categoryId.length > 0`):
check that the `findAll` result count equals the supplied list length
(else `'invalid categoryId'`, 400), then `setCategories`. -/
def categoriesStep (pid : Nat) (b : Body) (s : Store) : Except Err Store :=
  match b.categoryId with
  | some l =>
    if l.length > 0 then
      if (foundCategories s.categories l).length = l.length then
        Except.ok (linkCategories pid l s)
      else Except.error invalidCategoryErr
    else Except.ok s
  | none => Except.ok s

/-- A row built by `Variant.bulkCreate(..., { fields: ['name','price','stock'] })`:
only those three input fields are written, the id is autoincremented, and the
foreign key is not set until the association call. -/
def mkVariant (vid : Nat) (v : VariantInput) : Variant :=
  { id := vid, name := v.name, price := v.price, stock := v.stock, productId := none }

/-- `Variant.bulkCreate(inputs, { fields: ['name','price','stock'] })`:
returns the created rows and the grown store. -/
def bulkCreateVariants (inputs : List VariantInput) (s : Store) : List Variant × Store :=
  let created := inputs.enum.map (fun iv => mkVariant (s.nextVariantId + iv.1) iv.2)
  (created,
   { s with variants := s.variants ++ created,
            nextVariantId := s.nextVariantId + inputs.length })

/-- `productData.setVariants(rows)`: replace-all association — rows in `ids`
point at `pid`, previous variants of `pid` outside `ids` are unlinked. -/
def setVariantsTo (pid : Nat) (ids : List Nat) (s : Store) : Store :=
  { s with variants := s.variants.map (fun w =>
      if ids.contains w.id then { w with productId := some pid }
      else if w.productId = some pid then { w with productId := none }
      else w) }

/-- `productData.addVariants(rows)`: add-only association. -/
def addVariantsTo (pid : Nat) (ids : List Nat) (s : Store) : Store :=
  { s with variants := s.variants.map (fun w =>
      if ids.contains w.id then { w with productId := some pid } else w) }

/-- The final `Product.findByPk(id, { attributes: { exclude: ['image'] }, ... })`
of both mutation handlers; the image attribute is excluded from the result. -/
def loadResult (pid : Nat) (s : Store) : Product :=
  match s.products.find? (fun p => p.id = pid) with
  | some p => { p with image := none }
  | none =>
    { id := pid, name := "", description := "", image := none,
      isActive := false, createdAt := 0, updatedAt := 0 }

/-- `req.body.image = await sharp(req.file.buffer).png().toBuffer()` in
`createProduct`: `req.file` is dereferenced unconditionally, so a missing
upload crashes, and a normalizer failure propagates. -/
def normalizeCreate (norm : Nat → Option Nat) (file : Option Nat) : Except Err Nat :=
  match file with
  | none => Except.error sharpFileErr
  | some f =>
    match norm f with
    | none => Except.error sharpNormErr
    | some i => Except.ok i

/-- `Product.create(req.body, { field: [...], transaction: t })`.  The option
key is misspelled `field` (the Sequelize option is `fields`), so the intended
`['name','description','image','isActive']` restriction is inert and every
model attribute present in the body is written — `createdAt` included. -/
def insertProduct (b : Body) (img : Nat) (s : Store) : Nat × Store :=
  let p : Product :=
    { id := s.nextProductId,
      name := b.name.getD "", description := b.description.getD "",
      image := some img, isActive := b.isActive.getD true,
      createdAt := b.createdAt.getD 0, updatedAt := 0 }
  (s.nextProductId,
   { s with products := s.products ++ [p], nextProductId := s.nextProductId + 1 })

/-- The variants block of `createProduct`: bulk-create then `setVariants`. -/
def createVariantsStep (pid : Nat) (b : Body) (s : Store) : Store :=
  match b.variants with
  | some vs =>
    if vs.length > 0 then
      let cs := bulkCreateVariants vs s
      setVariantsTo pid (cs.1.map (fun v => v.id)) cs.2
    else s
  | none => s

/-- The `sequelize.transaction` body of `createProduct`. -/
def createProductT (norm : Nat → Option Nat) (file : Option Nat) (b : Body)
    (s : Store) : Except Err (Store × Product) := do
  let img ← normalizeCreate norm file
  let ps := insertProduct b img s
  let s2 ← categoriesStep ps.1 b ps.2
  let s3 := createVariantsStep ps.1 b s2
  Except.ok (s3, loadResult ps.1 s3)

/-- `createProduct`: the transaction wrapper — a raise anywhere inside the
body rolls every write back, so the handler returns the original store
together with the error. -/
def createProduct (norm : Nat → Option Nat) (file : Option Nat) (b : Body)
    (s : Store) : Store × Except Err Product :=
  match createProductT norm file b s with
  | Except.ok r => (r.1, Except.ok r.2)
  | Except.error e => (s, Except.error e)

/-- `if (req.file) req.body.image = await sharp(...)` in `editProductById`:
here the upload is optional, but a normalizer failure still propagates. -/
def normalizeEdit (norm : Nat → Option Nat) (file : Option Nat) :
    Except Err (Option Nat) :=
  match file with
  | none => Except.ok none
  | some f =>
    match norm f with
    | none => Except.error sharpNormErr
    | some i => Except.ok (some i)

/-- The `UPDATE` row image of `Product.update(req.body, ...)`: as in
`insertProduct`, the misspelled `field` option leaves Sequelize's default
in force, so every body attribute is written, `createdAt` included. -/
def applyBodyFields (b : Body) (bimg : Option Nat) (p : Product) : Product :=
  { p with
    name := b.name.getD p.name,
    description := b.description.getD p.description,
    isActive := b.isActive.getD p.isActive,
    image := match bimg with | some i => some i | none => p.image,
    createdAt := b.createdAt.getD p.createdAt }

/-- `Product.update(req.body, { where: { id }, field: [...] })` followed by
the `numProductUpdated === 0` check (`'product not found'`, 404). -/
def productUpdateStep (pid : Nat) (b : Body) (bimg : Option Nat) (s : Store) :
    Except Err Store :=
  let n := (s.products.filter (fun p => p.id = pid)).length
  let s2 := { s with products := s.products.map (fun p =>
      if p.id = pid then applyBodyFields b bimg p else p) }
  if n = 0 then Except.error productNotFoundErr else Except.ok s2

/-- `req.body.variants.filter((variant) => !variant?.id)`: the create set. -/
def newVariantsOf (vs : List VariantInput) : List VariantInput :=
  vs.filter (fun v => !truthyId v.id)

/-- `req.body.variants.filter((variant) => !!variant?.id)`: the update set. -/
def updateVariantsOf (vs : List VariantInput) : List VariantInput :=
  vs.filter (fun v => truthyId v.id)

/-- `updateVariants.map(({ id }) => id)`. -/
def updateVariantIds (vs : List VariantInput) : List Nat :=
  (updateVariantsOf vs).map (fun v => v.id.getD 0)

/-- The delete set of the reconciliation: every variant currently owned by
the product whose id is not among the claimed-existing ids. -/
def toDeleteOf (existing : List Variant) (vs : List VariantInput) : List Variant :=
  existing.filter (fun w => !(updateVariantIds vs).contains w.id)

/-- The destroy loop: `productData.getVariants()` then `variantData.destroy()`
for each current variant whose id is not in `keepIds` — i.e. the store keeps
exactly the rows that are not stale variants of `pid`. -/
def deleteStaleVariants (pid : Nat) (keepIds : List Nat) (s : Store) : Store :=
  { s with variants := s.variants.filter (fun w =>
      !(decide (w.productId = some pid) && !keepIds.contains w.id)) }

/-- `{ ...w, name, price, stock }` row image of `Variant.update(updateVariant,
{ fields: ['name','price','stock'] })` (here the option is spelled right). -/
def variantUpdateFields (uv : VariantInput) (w : Variant) : Variant :=
  { w with name := uv.name, price := uv.price, stock := uv.stock }

/-- The update loop: for each claimed-existing input run
`Variant.update(updateVariant, { where: { id: updateVariant.id } })` — note
the `where` keys only the variant id, with no owning-product restriction —
and raise `'invalid variant id'` (400) when zero rows matched. -/
def variantUpdateLoop (uvs : List VariantInput) (s : Store) : Except Err Store :=
  match uvs with
  | [] => Except.ok s
  | uv :: rest =>
    let uid := uv.id.getD 0
    let n := (s.variants.filter (fun w => w.id = uid)).length
    let s2 := { s with variants := s.variants.map (fun w =>
        if w.id = uid then variantUpdateFields uv w else w) }
    if n = 0 then Except.error invalidVariantErr else variantUpdateLoop rest s2

/-- The variants block of `editProductById`: partition the inputs, destroy
the stale rows, update the claimed-existing rows, bulk-create the id-less
inputs and `addVariants` them to the product. -/
def editVariantsStep (pid : Nat) (vs : List VariantInput) (s : Store) :
    Except Err Store := do
  let s1 := deleteStaleVariants pid (updateVariantIds vs) s
  let s2 ← variantUpdateLoop (updateVariantsOf vs) s1
  let cs := bulkCreateVariants (newVariantsOf vs) s2
  Except.ok (addVariantsTo pid (cs.1.map (fun v => v.id)) cs.2)

/-- The `sequelize.transaction` body of `editProductById` (the
`Product.findByPk` that yields the `productData` handle is reflected in the
`pid`-indexed reads of the later steps). -/
def editProductT (norm : Nat → Option Nat) (pid : Nat) (file : Option Nat)
    (b : Body) (s : Store) : Except Err (Store × Product) := do
  let bimg ← normalizeEdit norm file
  if b.isEmpty && bimg.isNone then Except.error noDataErr else do
  let s1 ← productUpdateStep pid b bimg s
  let s2 ← categoriesStep pid b s1
  let s3 ←
    match b.variants with
    | some vs =>
      if vs.length > 0 then editVariantsStep pid vs s2 else Except.ok s2
    | none => Except.ok s2
  Except.ok (s3, loadResult pid s3)

/-- `editProductById`: serializable transaction wrapper — any raise rolls
back every write, so the handler returns the original store with the error. -/
def editProductById (norm : Nat → Option Nat) (pid : Nat) (file : Option Nat)
    (b : Body) (s : Store) : Store × Except Err Product :=
  match editProductT norm pid file b s with
  | Except.ok r => (r.1, Except.ok r.2)
  | Except.error e => (s, Except.error e)

/-- `deleteProductById`: `Product.destroy({ where: { id } })`, 404 when no
row matched (runs outside any explicit transaction). -/
def deleteProductById (pid : Nat) (s : Store) : Store × Except Err Unit :=
  let n := (s.products.filter (fun p => p.id = pid)).length
  if n = 0 then (s, Except.error productNotFoundErr)
  else ({ s with products := s.products.filter (fun p => p.id ≠ pid) }, Except.ok ())

/-! ### Concrete fixtures used by witnesses and counterexamples -/

/-- The empty database. -/
def exStore0 : Store := ⟨[], [], [], [], 1, 1⟩

/-- A body with every field absent (`req.body = {}`). -/
def exEmptyBody : Body := ⟨none, none, none, none, none, none⟩

def exProduct1 : Product := ⟨1, "p1", "", none, true, 0, 0⟩

def exProduct2 : Product := ⟨2, "p2", "", none, true, 0, 0⟩

/-- Variant 1 owned by product 1. -/
def exVariant1 : Variant := ⟨1, "v1", 10, 1, some 1⟩

/-- Variant 2 owned by product 2. -/
def exVariant2 : Variant := ⟨2, "v2", 20, 1, some 2⟩

/-- Two products, each owning one variant. -/
def exStore2 : Store := ⟨[exProduct1, exProduct2], [], [exVariant1, exVariant2], [], 3, 3⟩

/-- An edit body renaming the product and targeting the nonexistent variant
id 99. -/
def exBadVariantBody : Body :=
  ⟨some "renamed", none, none, none, none, some [⟨some 99, "N", 5, 5⟩]⟩

/-- An edit body whose single variant input claims the identity of variant 2
— a variant that exists but belongs to the *other* product. -/
def exForeignVariantBody : Body :=
  ⟨none, none, none, none, none, some [⟨some 2, "N", 5, 5⟩]⟩

/-- One product and two categories (ids 1 and 2). -/
def exStoreCats : Store := ⟨[exProduct1], [⟨1, "c1"⟩, ⟨2, "c2"⟩], [], [], 2, 1⟩

/-- A body supplying category list `[1, 2, 999]` (999 does not exist). -/
def exMissingCatBody : Body := ⟨none, none, none, none, some [1, 2, 999], none⟩

/-- A body supplying category list `[1, 1, 2]` (1 duplicated, all exist). -/
def exDupCatBody : Body := ⟨none, none, none, none, some [1, 1, 2], none⟩

/-- A create body carrying a `createdAt` value alongside `name`. -/
def exCreatedAtBody : Body := ⟨some "x", none, none, some 99, none, none⟩

def exPriceP1 : Product := ⟨1, "one", "", none, true, 0, 0⟩

def exPriceP2 : Product := ⟨2, "two", "", none, true, 0, 0⟩

def exPriceP3 : Product := ⟨3, "three", "", none, true, 0, 0⟩

/-- Product 1 has variant prices {10, 30}, product 2 has {20}, product 3 has
no variants. -/
def exPriceStore : Store :=
  ⟨[exPriceP1, exPriceP2, exPriceP3], [],
   [⟨1, "a", 10, 1, some 1⟩, ⟨2, "b", 30, 1, some 1⟩, ⟨3, "c", 20, 1, some 2⟩],
   [], 4, 4⟩

/-- Unpaginated price sort, ascending. -/
def exPriceQueryAsc : Query := ⟨none, none, some "price", some "ASC", false, none, none⟩

/-- The response of `getProducts exPriceStore exPriceQueryAsc`: the
no-variant product first, then prices 20 and 30. -/
def exPriceResultAsc : ListResult :=
  ⟨[exPriceP3, exPriceP2, exPriceP1], 3, none, none, none⟩

/-- Two products, category 5, product 1 linked to it. -/
def exStoreScope : Store := ⟨[exProduct1, exProduct2], [⟨5, "cat"⟩], [], [(1, 5)], 3, 1⟩

/-- A paginated query scoped to category 5. -/
def exScopeQuery : Query := ⟨none, some 5, none, none, true, none, none⟩

/-- A paginated query scoped to the nonexistent category 9. -/
def exScopeQueryMissing : Query := ⟨none, some 9, none, none, true, none, none⟩

/-- The response of `getProducts exStoreScope exScopeQuery`: only the linked
product 1, with the count taken over the scoped filter. -/
def exScopeResult : ListResult := ⟨[exProduct1], 1, some 1, some 1, some 5⟩

/-- Existing variant A (id 1) of the spec's reconciliation example. -/
def exVarA : Variant := ⟨1, "A", 1, 1, some 1⟩

/-- Existing variant B (id 2) of the spec's reconciliation example. -/
def exVarB : Variant := ⟨2, "B", 2, 2, some 1⟩

/-- Existing variant C (id 3) of the spec's reconciliation example. -/
def exVarC : Variant := ⟨3, "C", 3, 3, some 1⟩

/-- The input claiming B's identity. -/
def exInputB : VariantInput := ⟨some 2, "B2", 9, 9⟩

/-- The id-less input D. -/
def exInputD : VariantInput := ⟨none, "D", 4, 4⟩

end PosBE

namespace PosBE

/-! ### Generic reduction lemmas -/

theorem bindE_ok {α β : Type} (a : α) (f : α → Except Err β) :
    (Except.ok a : Except Err α) >>= f = f a := rfl

theorem bindE_err {α β : Type} (e : Err) (f : α → Except Err β) :
    (Except.error e : Except Err α) >>= f = Except.error e := rfl

/-! ### Ordering lemmas for the catalog query engine -/

theorem orderInsert_perm (le : Product → Product → Bool) (x : Product)
    (l : List Product) : (orderInsert le x l).Perm (x :: l) := by
  induction l with
  | nil => exact List.Perm.refl _
  | cons y ys ih =>
    unfold orderInsert
    by_cases h : le x y = true
    · rw [if_pos h]
    · rw [if_neg h]
      exact (ih.cons y).trans (List.Perm.swap x y ys)

theorem orderRows_perm (le : Product → Product → Bool) (l : List Product) :
    (orderRows le l).Perm l := by
  induction l with
  | nil => exact List.Perm.refl _
  | cons x xs ih =>
    exact (orderInsert_perm le x (orderRows le xs)).trans (ih.cons x)

theorem orderInsert_pairwise (le : Product → Product → Bool)
    (htr : ∀ a b c, le a b = true → le b c = true → le a c = true)
    (hto : ∀ a b, le a b = true ∨ le b a = true)
    (x : Product) (l : List Product)
    (hl : l.Pairwise (fun a b => le a b = true)) :
    (orderInsert le x l).Pairwise (fun a b => le a b = true) := by
  induction l with
  | nil => simp [orderInsert]
  | cons y ys ih =>
    rcases List.pairwise_cons.mp hl with ⟨hy, hys⟩
    unfold orderInsert
    by_cases h : le x y = true
    · rw [if_pos h]
      refine List.pairwise_cons.mpr ⟨?_, hl⟩
      intro b hb
      rcases List.mem_cons.mp hb with rfl | hb
      · exact h
      · exact htr x y b h (hy b hb)
    · rw [if_neg h]
      refine List.pairwise_cons.mpr ⟨?_, ih hys⟩
      intro b hb
      have hb2 := (orderInsert_perm le x ys).mem_iff.mp hb
      rcases List.mem_cons.mp hb2 with rfl | hb3
      · rcases hto b y with h1 | h1
        · exact absurd h1 h
        · exact h1
      · exact hy b hb3

theorem orderRows_pairwise (le : Product → Product → Bool)
    (htr : ∀ a b c, le a b = true → le b c = true → le a c = true)
    (hto : ∀ a b, le a b = true ∨ le b a = true) (l : List Product) :
    (orderRows le l).Pairwise (fun a b => le a b = true) := by
  induction l with
  | nil => simp [orderRows]
  | cons x xs ih => exact orderInsert_pairwise le htr hto x _ ih

theorem nullLowLe_trans (a b c : Option Int) (h1 : nullLowLe a b = true)
    (h2 : nullLowLe b c = true) : nullLowLe a c = true := by
  cases a <;> cases b <;> cases c <;> (simp [nullLowLe] at *; all_goals omega)

theorem nullLowLe_total (a b : Option Int) :
    nullLowLe a b = true ∨ nullLowLe b a = true := by
  cases a <;> cases b <;> (simp [nullLowLe]; all_goals omega)

theorem rowLe_trans (s : Store) (q : Query) : ∀ a b c,
    rowLe s q a b = true → rowLe s q b c = true → rowLe s q a c = true := by
  intro a b c
  unfold rowLe
  by_cases h : isAsc q = true
  · simp only [h, if_true]
    exact fun h1 h2 => nullLowLe_trans _ _ _ h1 h2
  · simp only [h, if_false]
    exact fun h1 h2 => nullLowLe_trans _ _ _ h2 h1

theorem rowLe_total (s : Store) (q : Query) : ∀ a b,
    rowLe s q a b = true ∨ rowLe s q b a = true := by
  intro a b
  unfold rowLe
  by_cases h : isAsc q = true
  · simp only [h, if_true]
    exact nullLowLe_total _ _
  · simp only [h, if_false]
    exact (nullLowLe_total _ _).symm

theorem paginate_sublist (q : Query) (l : List Product) :
    (paginate q l).Sublist l := by
  unfold paginate
  by_cases h : q.isPaginated = true <;> simp [h]
  exact (List.take_sublist _ _).trans (List.drop_sublist _ _)

theorem buildList_total (s : Store) (q : Query) (pool : List Product) :
    (buildList s q pool).total_data = (pool.filter (matchesName q.name)).length := by
  unfold buildList
  by_cases h : q.isPaginated = true <;> simp [h]

theorem buildList_data (s : Store) (q : Query) (pool : List Product) :
    (buildList s q pool).data =
      (paginate q (orderRows (rowLe s q) (pool.filter (matchesName q.name)))).map
        (fun p => { p with image := none }) := by
  unfold buildList
  by_cases h : q.isPaginated = true <;> simp [h]

theorem mem_buildList_data (s : Store) (q : Query) (pool : List Product)
    (p : Product) (hp : p ∈ (buildList s q pool).data) :
    ∃ p0 ∈ pool, matchesName q.name p0 = true ∧ p = { p0 with image := none } := by
  rw [buildList_data] at hp
  obtain ⟨p0, hp0, hmap⟩ := List.mem_map.mp hp
  have h1 : p0 ∈ orderRows (rowLe s q) (pool.filter (matchesName q.name)) :=
    List.Sublist.mem hp0 (paginate_sublist q _)
  have h2 := ((orderRows_perm _ _).mem_iff).mp h1
  have h3 := List.mem_filter.mp h2
  exact ⟨p0, h3.1, h3.2, hmap.symm⟩

theorem matchesName_strip (qn : Option String) (p : Product) :
    matchesName qn { p with image := none } = matchesName qn p := by
  cases qn <;> rfl

theorem getProducts_scoped (s : Store) (q : Query) (cid : Nat)
    (hq : q.categoryId = some cid) :
    getProducts s q =
      if s.categories.any (fun c => c.id = cid) then
        Except.ok (buildList s q (s.products.filter (fun p => linkedTo s p.id cid)))
      else Except.error invalidCategoryErr := by
  unfold getProducts
  rw [hq]

theorem getProducts_unscoped (s : Store) (q : Query) (hq : q.categoryId = none) :
    getProducts s q = Except.ok (buildList s q s.products) := by
  unfold getProducts
  rw [hq]

/-! ### Claim C8 — price sort ordering key -/

/-- Claim C8: when `sortBy = "price"`, the rows of a successful listing are
pairwise ordered by the per-product maximum variant price computed from the
variant table at query time (ascending when `orderBy` says ASC, otherwise
descending), where a product with no variants has key `none` and `none`
sorts below every numeric price in both directions; and a product with no
variant rows indeed has key `none`. -/
theorem price_sort_ordering (s : Store) (q : Query) (hq : q.sortBy = some "price")
    (r : ListResult) (h : getProducts s q = Except.ok r) :
    r.data.Pairwise (fun a b =>
      (if isAsc q then nullLowLe (maxVariantPrice s a.id) (maxVariantPrice s b.id)
       else nullLowLe (maxVariantPrice s b.id) (maxVariantPrice s a.id)) = true) ∧
    ∀ pid : Nat, s.variants.filter (fun v => v.productId = some pid) = [] →
      maxVariantPrice s pid = none := by
  have hkey : ∀ a b : Product, rowLe s q a b = true →
      (if isAsc q then nullLowLe (maxVariantPrice s a.id) (maxVariantPrice s b.id)
       else nullLowLe (maxVariantPrice s b.id) (maxVariantPrice s a.id)) = true := by
    intro a b hab
    simpa [rowLe, sortKey, hq] using hab
  have hmain : ∀ pool : List Product, r = buildList s q pool →
      r.data.Pairwise (fun a b =>
        (if isAsc q then nullLowLe (maxVariantPrice s a.id) (maxVariantPrice s b.id)
         else nullLowLe (maxVariantPrice s b.id) (maxVariantPrice s a.id)) = true) := by
    intro pool hr
    rw [hr, buildList_data]
    have hpw : (paginate q (orderRows (rowLe s q)
        (pool.filter (matchesName q.name)))).Pairwise
        (fun a b => rowLe s q a b = true) :=
      List.Pairwise.sublist (paginate_sublist q _)
        (orderRows_pairwise (rowLe s q) (rowLe_trans s q) (rowLe_total s q) _)
    exact List.Pairwise.map _ (fun a b hab => hkey a b hab) hpw
  constructor
  · cases hqc : q.categoryId with
    | none =>
      rw [getProducts_unscoped s q hqc] at h
      refine hmain s.products ?_
      injection h with h2
      exact h2.symm
    | some cid =>
      rw [getProducts_scoped s q cid hqc] at h
      by_cases hAny : s.categories.any (fun c => c.id = cid) = true
      · rw [if_pos hAny] at h
        injection h with h2
        exact hmain _ h2.symm
      · rw [if_neg hAny] at h
        cases h
  · intro pid h0
    simp [maxVariantPrice, h0]

/-- Witness for C8: the spec's price-sort example — prices {10,30}, {20} and
a variant-less product — listed ascending puts the no-price product first
and then 20 before 30. -/
theorem price_sort_ordering_witness :
    getProducts exPriceStore exPriceQueryAsc = Except.ok exPriceResultAsc ∧
    exPriceResultAsc.data.Pairwise (fun a b =>
      (if isAsc exPriceQueryAsc then
        nullLowLe (maxVariantPrice exPriceStore a.id) (maxVariantPrice exPriceStore b.id)
       else
        nullLowLe (maxVariantPrice exPriceStore b.id) (maxVariantPrice exPriceStore a.id)) = true) :=
  ⟨by rfl,
   (price_sort_ordering exPriceStore exPriceQueryAsc rfl exPriceResultAsc (by rfl)).1⟩

/-! ### Claim C7 — category scope of the listing -/

/-- Claim C7 (amended): a listing scoped to a missing category fails with
the invalid-reference error `'invalid categoryId'` (400) — not with a
NotFound-kind (404) error; when the category exists, every returned row is
linked to it and satisfies the name filter, and `total_data` is computed
over the same scoped filter rather than the unscoped table. -/
theorem category_scope_behavior (s : Store) (q : Query) (cid : Nat)
    (hq : q.categoryId = some cid) :
    ((∀ c ∈ s.categories, c.id ≠ cid) →
      getProducts s q = Except.error invalidCategoryErr) ∧
    (∀ r, getProducts s q = Except.ok r →
      (∀ p ∈ r.data, linkedTo s p.id cid = true ∧ matchesName q.name p = true) ∧
      r.total_data = ((s.products.filter (fun p => linkedTo s p.id cid)).filter
        (matchesName q.name)).length) := by
  constructor
  · intro hmiss
    have hAny : s.categories.any (fun c => c.id = cid) = false := by
      rw [List.any_eq_false]
      intro c hc
      simpa using hmiss c hc
    rw [getProducts_scoped s q cid hq, hAny]
    rfl
  · intro r h
    rw [getProducts_scoped s q cid hq] at h
    by_cases hAny : s.categories.any (fun c => c.id = cid) = true
    · rw [if_pos hAny] at h
      have hr : r = buildList s q (s.products.filter (fun p => linkedTo s p.id cid)) := by
        injection h with h2
        exact h2.symm
      constructor
      · intro p hp
        rw [hr] at hp
        obtain ⟨p0, hp0, hmn, rfl⟩ := mem_buildList_data _ _ _ _ hp
        have h2 := List.mem_filter.mp hp0
        refine ⟨h2.2, ?_⟩
        rw [matchesName_strip]
        exact hmn
      · rw [hr, buildList_total]
    · rw [if_neg hAny] at h
      cases h

/-- Counterexample for C7 as stated: scoping to the missing category 9 makes
`getProducts` fail, but with the 400-family invalid-reference error, which
is not of the NotFound (404) kind. -/
theorem category_scope_not_notfound_cex :
    getProducts exStoreScope exScopeQueryMissing = Except.error invalidCategoryErr ∧
    invalidCategoryErr.isNotFound = false :=
  ⟨by rfl, by rfl⟩

/-- Witness for C7: scoping to the existing category 5 returns only the
linked product and counts over the scoped filter. -/
theorem category_scope_behavior_witness :
    (∀ p ∈ exScopeResult.data,
      linkedTo exStoreScope p.id 5 = true ∧ matchesName exScopeQuery.name p = true) ∧
    exScopeResult.total_data =
      ((exStoreScope.products.filter (fun p => linkedTo exStoreScope p.id 5)).filter
        (matchesName exScopeQuery.name)).length :=
  (category_scope_behavior exStoreScope exScopeQuery 5 rfl).2 exScopeResult (by rfl)

/-! ### Counting lemmas for the category existence check -/

theorem foundCategories_ids_nodup (cats : List Category) (l : List Nat)
    (hnd : (cats.map (fun c => c.id)).Nodup) :
    ((foundCategories cats l).map (fun c => c.id)).Nodup :=
  List.Nodup.sublist (List.Sublist.map _ (List.filter_sublist cats)) hnd

theorem foundCategories_ids_mem (cats : List Category) (l : List Nat) (a : Nat)
    (ha : a ∈ (foundCategories cats l).map (fun c => c.id)) : a ∈ l := by
  obtain ⟨c, hc, rfl⟩ := List.mem_map.mp ha
  have h2 := (List.mem_filter.mp hc).2
  simpa using h2

theorem foundCategories_card_le (cats : List Category) (l : List Nat)
    (hnd : (cats.map (fun c => c.id)).Nodup) :
    (foundCategories cats l).length =
      ((foundCategories cats l).map (fun c => c.id)).toFinset.card ∧
    ((foundCategories cats l).map (fun c => c.id)).toFinset ⊆ l.toFinset := by
  constructor
  · rw [List.toFinset_card_of_nodup (foundCategories_ids_nodup cats l hnd)]
    exact (List.length_map _ _).symm
  · intro a ha
    rw [List.mem_toFinset] at ha ⊢
    exact foundCategories_ids_mem cats l a ha

theorem foundCategories_length_lt_of_missing (cats : List Category) (l : List Nat)
    (x : Nat) (hnd : (cats.map (fun c => c.id)).Nodup) (hx : x ∈ l)
    (hmiss : ∀ c ∈ cats, c.id ≠ x) :
    (foundCategories cats l).length < l.length := by
  obtain ⟨hcard, hsub⟩ := foundCategories_card_le cats l hnd
  have hdx : x ∉ ((foundCategories cats l).map (fun c => c.id)).toFinset := by
    rw [List.mem_toFinset]
    intro hxin
    obtain ⟨c, hc, hcid⟩ := List.mem_map.mp hxin
    exact hmiss c (List.mem_of_mem_filter hc) hcid
  have hss : ((foundCategories cats l).map (fun c => c.id)).toFinset ⊂ l.toFinset :=
    (Finset.ssubset_iff_of_subset hsub).mpr ⟨x, List.mem_toFinset.mpr hx, hdx⟩
  calc (foundCategories cats l).length
      = ((foundCategories cats l).map (fun c => c.id)).toFinset.card := hcard
    _ < l.toFinset.card := Finset.card_lt_card hss
    _ ≤ l.length := List.toFinset_card_le l

theorem foundCategories_length_lt_of_dup (cats : List Category) (l : List Nat)
    (hnd : (cats.map (fun c => c.id)).Nodup) (hdup : ¬ l.Nodup) :
    (foundCategories cats l).length < l.length := by
  obtain ⟨hcard, hsub⟩ := foundCategories_card_le cats l hnd
  have h5 : l.dedup.length < l.length := by
    have hs : l.dedup.Sublist l := List.dedup_sublist l
    rcases lt_or_eq_of_le hs.length_le with h | h
    · exact h
    · exact absurd (List.dedup_eq_self.mp (hs.eq_of_length h)) hdup
  calc (foundCategories cats l).length
      = ((foundCategories cats l).map (fun c => c.id)).toFinset.card := hcard
    _ ≤ l.toFinset.card := Finset.card_le_card hsub
    _ = l.dedup.length := List.card_toFinset l
    _ < l.length := h5

theorem categoriesStep_err (pid : Nat) (b : Body) (s : Store) (l : List Nat)
    (hb : b.categoryId = some l) (hne : l ≠ [])
    (hlen : (foundCategories s.categories l).length ≠ l.length) :
    categoriesStep pid b s = Except.error invalidCategoryErr := by
  unfold categoriesStep
  simp only [hb]
  rw [if_pos (List.length_pos.mpr hne), if_neg hlen]

theorem productUpdateStep_ok (pid : Nat) (b : Body) (bimg : Option Nat) (s : Store)
    (hp : pid ∈ s.products.map (fun p => p.id)) :
    productUpdateStep pid b bimg s = Except.ok { s with products := s.products.map (fun p =>
      if p.id = pid then applyBodyFields b bimg p else p) } := by
  obtain ⟨p, hpm, hpid⟩ := List.mem_map.mp hp
  have hmem : p ∈ s.products.filter (fun p => p.id = pid) :=
    List.mem_filter.mpr ⟨hpm, by simp [hpid]⟩
  have hlen : (s.products.filter (fun p => p.id = pid)).length ≠ 0 := by
    intro h0
    rw [List.length_eq_zero] at h0
    rw [h0] at hmem
    cases hmem
  unfold productUpdateStep
  rw [if_neg hlen]

theorem createProduct_category_err (norm : Nat → Option Nat) (f i : Nat) (b : Body)
    (s : Store) (l : List Nat) (hn : norm f = some i) (hb : b.categoryId = some l)
    (hne : l ≠ [])
    (hlen : (foundCategories s.categories l).length ≠ l.length) :
    createProduct norm (some f) b s = (s, Except.error invalidCategoryErr) := by
  have hc : categoriesStep (insertProduct b i s).1 b (insertProduct b i s).2 =
      Except.error invalidCategoryErr :=
    categoriesStep_err _ b _ l hb hne hlen
  simp only [createProduct, createProductT, normalizeCreate, hn, bindE_ok, bindE_err, hc]

theorem editProduct_category_err (norm : Nat → Option Nat) (pid : Nat) (b : Body)
    (s : Store) (l : List Nat) (hb : b.categoryId = some l) (hne : l ≠ [])
    (hp : pid ∈ s.products.map (fun p => p.id))
    (hlen : (foundCategories s.categories l).length ≠ l.length) :
    editProductById norm pid none b s = (s, Except.error invalidCategoryErr) := by
  have hempty : b.isEmpty = false := by simp [Body.isEmpty, hb]
  have hupd := productUpdateStep_ok pid b none s hp
  have hc : categoriesStep pid b { s with products := s.products.map (fun p =>
      if p.id = pid then applyBodyFields b none p else p) } =
      Except.error invalidCategoryErr :=
    categoriesStep_err _ b _ l hb hne hlen
  unfold editProductById editProductT
  rw [show normalizeEdit norm none = Except.ok none from rfl, bindE_ok]
  simp only [hempty, Bool.false_and, Bool.false_eq_true, if_false, hupd,
    bindE_ok, bindE_err, hc]

/-! ### Claim C3 — missing category identity rejects the whole mutation -/

/-- Claim C3: for both create and edit, a supplied non-empty category list
containing an identity that resolves to no Category row makes the whole
mutation fail with `'invalid categoryId'` (400, invalid reference), the
count-mismatch check being the detection rule, and the store is returned
exactly as it was (rollback — no link applied, product unmodified). -/
theorem category_missing_rejected (norm : Nat → Option Nat) (f i : Nat)
    (hn : norm f = some i) (s : Store) (hwf : s.WF) (b : Body) (l : List Nat)
    (x : Nat) (hb : b.categoryId = some l) (hx : x ∈ l)
    (hmiss : ∀ c ∈ s.categories, c.id ≠ x) :
    createProduct norm (some f) b s = (s, Except.error invalidCategoryErr) ∧
    ∀ pid, pid ∈ s.products.map (fun p => p.id) →
      editProductById norm pid none b s = (s, Except.error invalidCategoryErr) := by
  have hne : l ≠ [] := by
    intro h0
    rw [h0] at hx
    cases hx
  have hlen : (foundCategories s.categories l).length ≠ l.length :=
    Nat.ne_of_lt (foundCategories_length_lt_of_missing s.categories l x hwf.2.1 hx hmiss)
  exact ⟨createProduct_category_err norm f i b s l hn hb hne hlen,
         fun pid hp => editProduct_category_err norm pid b s l hb hne hp hlen⟩

/-- Witness for C3: category list `[1, 2, 999]` against a store holding only
categories 1 and 2 — create and edit of product 1 both fail with the
invalid-reference error and the store is unchanged. -/
theorem category_missing_rejected_witness :
    createProduct (fun i => some i) (some 7) exMissingCatBody exStoreCats =
      (exStoreCats, Except.error invalidCategoryErr) ∧
    editProductById (fun i => some i) 1 none exMissingCatBody exStoreCats =
      (exStoreCats, Except.error invalidCategoryErr) := by
  have h := category_missing_rejected (fun i => some i) 7 7 rfl exStoreCats (by decide)
    exMissingCatBody [1, 2, 999] 999 rfl (by decide) (by decide)
  exact ⟨h.1, h.2 1 (by decide)⟩

/-! ### Claim C10 — duplicated category ids also fail the count check -/

/-- Claim C10: a category list containing the same existing id more than
once fails the count-mismatch existence check (the `findAll` returns each
matching row once, so the count cannot reach the list length), rejecting
both create and edit with `'invalid categoryId'` even though every listed
id resolves. -/
theorem category_duplicate_rejected (norm : Nat → Option Nat) (f i : Nat)
    (hn : norm f = some i) (s : Store) (hwf : s.WF) (b : Body) (l : List Nat)
    (hb : b.categoryId = some l) (hdup : ¬ l.Nodup)
    (_hall : ∀ x ∈ l, ∃ c ∈ s.categories, c.id = x) :
    createProduct norm (some f) b s = (s, Except.error invalidCategoryErr) ∧
    ∀ pid, pid ∈ s.products.map (fun p => p.id) →
      editProductById norm pid none b s = (s, Except.error invalidCategoryErr) := by
  have hne : l ≠ [] := by
    intro h0
    exact hdup (h0 ▸ List.nodup_nil)
  have hlen : (foundCategories s.categories l).length ≠ l.length :=
    Nat.ne_of_lt (foundCategories_length_lt_of_dup s.categories l hwf.2.1 hdup)
  exact ⟨createProduct_category_err norm f i b s l hn hb hne hlen,
         fun pid hp => editProduct_category_err norm pid b s l hb hne hp hlen⟩

/-- Witness for C10: list `[1, 1, 2]` where categories 1 and 2 both exist —
create and edit of product 1 both fail with the invalid-reference error. -/
theorem category_duplicate_rejected_witness :
    createProduct (fun i => some i) (some 7) exDupCatBody exStoreCats =
      (exStoreCats, Except.error invalidCategoryErr) ∧
    editProductById (fun i => some i) 1 none exDupCatBody exStoreCats =
      (exStoreCats, Except.error invalidCategoryErr) := by
  have h := category_duplicate_rejected (fun i => some i) 7 7 rfl exStoreCats (by decide)
    exDupCatBody [1, 1, 2] rfl (by decide) (by decide)
  exact ⟨h.1, h.2 1 (by decide)⟩

/-! ### Claim C1 — the variant reconciliation partition -/

/-- Counterexample for C1 as stated: the input `{id: 0, ...}` carries an id
field, yet the truthiness test `!variant?.id` sends it to the create
partition and leaves the update partition empty — so `toCreate` is not
"exactly the inputs without an id" nor `toUpdate` "exactly the inputs with
an id". -/
theorem variant_partition_id_zero_cex :
    (⟨some 0, "Z", 1, 1⟩ : VariantInput).id.isSome = true ∧
    newVariantsOf [⟨some 0, "Z", 1, 1⟩] = [⟨some 0, "Z", 1, 1⟩] ∧
    updateVariantsOf [⟨some 0, "Z", 1, 1⟩] = [] :=
  ⟨rfl, rfl, rfl⟩

/-- Claim C1 (amended): the reconciliation partitions the supplied inputs by
*truthy* id — `toCreate` is exactly the inputs whose id is absent or 0,
`toUpdate` is exactly the inputs with a present nonzero id (together a
permutation of the inputs), and the deleted set is exactly the product's
existing variants whose id is not among the truthy supplied ids; on the
spec's example with existing {A,B,C} and input [{id:B},{no-id D}], A and C
are deleted, B is updated and D is created. -/
theorem variant_partition (vs : List VariantInput) (existing : List Variant) :
    (newVariantsOf vs ++ updateVariantsOf vs).Perm vs ∧
    (∀ v, v ∈ newVariantsOf vs ↔ v ∈ vs ∧ truthyId v.id = false) ∧
    (∀ v, v ∈ updateVariantsOf vs ↔ v ∈ vs ∧ truthyId v.id = true) ∧
    (∀ w, w ∈ toDeleteOf existing vs ↔ w ∈ existing ∧ w.id ∉ updateVariantIds vs) ∧
    newVariantsOf [exInputB, exInputD] = [exInputD] ∧
    updateVariantsOf [exInputB, exInputD] = [exInputB] ∧
    toDeleteOf [exVarA, exVarB, exVarC] [exInputB, exInputD] = [exVarA, exVarC] := by
  refine ⟨?_, ?_, ?_, ?_, rfl, rfl, rfl⟩
  · have h := List.filter_append_perm (fun v => truthyId v.id) vs
    unfold newVariantsOf updateVariantsOf
    exact List.perm_append_comm.trans h
  · intro v
    simp [newVariantsOf, List.mem_filter]
  · intro v
    simp [updateVariantsOf, List.mem_filter]
  · intro w
    simp [toDeleteOf, List.mem_filter]

/-! ### Claim C4 — update inputs whose identity matches no variant -/

/-- Counterexample for C4 as stated: in `exStore2`, variant 2 exists but
belongs to product 2, so by the claim an edit of product 1 claiming
identity 2 must fail with InvalidReference — instead the edit succeeds,
deletes product 1's own variant and rewrites product 2's variant in place. -/
theorem variant_foreign_id_cex :
    (editProductById (fun i => some i) 1 none exForeignVariantBody exStore2).2 =
      Except.ok ⟨1, "p1", "", none, true, 0, 0⟩ ∧
    (editProductById (fun i => some i) 1 none exForeignVariantBody exStore2).1.variants =
      [⟨2, "N", 5, 5, some 2⟩] :=
  ⟨rfl, rfl⟩

theorem categoriesStep_none (pid : Nat) (b : Body) (s : Store)
    (hb : b.categoryId = none) : categoriesStep pid b s = Except.ok s := by
  unfold categoriesStep
  simp only [hb]

theorem variantUpdateLoop_err (uvs : List VariantInput) (uv : VariantInput)
    (huv : uv ∈ uvs) :
    ∀ s : Store, (∀ w ∈ s.variants, w.id ≠ uv.id.getD 0) →
      variantUpdateLoop uvs s = Except.error invalidVariantErr := by
  induction uvs with
  | nil => cases huv
  | cons head rest ih =>
    intro s hm
    unfold variantUpdateLoop
    by_cases hn : (s.variants.filter (fun w => w.id = head.id.getD 0)).length = 0
    · rw [if_pos hn]
    · rw [if_neg hn]
      rcases List.mem_cons.mp huv with heq | hrest
      · exfalso
        apply hn
        rw [List.length_eq_zero, List.filter_eq_nil_iff]
        intro w hw
        simp only [decide_eq_true_eq]
        rw [← heq]
        exact hm w hw
      · apply ih hrest
        intro w hw
        obtain ⟨w0, hw0, rfl⟩ := List.mem_map.mp hw
        by_cases hid : w0.id = head.id.getD 0
        · rw [if_pos hid]
          exact hm w0 hw0
        · rw [if_neg hid]
          exact hm w0 hw0

theorem editVariantsStep_err (pid : Nat) (vs : List VariantInput) (s : Store)
    (uv : VariantInput) (huv : uv ∈ updateVariantsOf vs)
    (hmiss : ∀ w ∈ s.variants, w.id ≠ uv.id.getD 0) :
    editVariantsStep pid vs s = Except.error invalidVariantErr := by
  have hloop : variantUpdateLoop (updateVariantsOf vs)
      (deleteStaleVariants pid (updateVariantIds vs) s) =
      Except.error invalidVariantErr := by
    apply variantUpdateLoop_err _ uv huv
    intro w hw
    exact hmiss w (List.mem_of_mem_filter hw)
  simp only [editVariantsStep, hloop, bindE_err]

/-- Claim C4 (amended): an edit whose variant list claims an identity that
matches no variant row at all in the store fails with `'invalid variant id'`
(400, invalid reference) and rolls back entirely; the match is by global
variant identity — the `UPDATE` is keyed only on the variant id — not
restricted to the edited product's own variants (see the counterexample). -/
theorem variant_missing_id_rejected (norm : Nat → Option Nat) (pid : Nat) (b : Body)
    (s : Store) (vs : List VariantInput) (uv : VariantInput)
    (hp : pid ∈ s.products.map (fun p => p.id)) (hcat : b.categoryId = none)
    (hvs : b.variants = some vs) (huv : uv ∈ updateVariantsOf vs)
    (hmiss : ∀ w ∈ s.variants, w.id ≠ uv.id.getD 0) :
    editProductById norm pid none b s = (s, Except.error invalidVariantErr) := by
  have hempty : b.isEmpty = false := by simp [Body.isEmpty, hvs]
  have hupd := productUpdateStep_ok pid b none s hp
  have hcs : categoriesStep pid b { s with products := s.products.map (fun p =>
      if p.id = pid then applyBodyFields b none p else p) } = Except.ok _ :=
    categoriesStep_none pid b _ hcat
  have hvslen : vs.length > 0 := by
    refine List.length_pos.mpr ?_
    intro h0
    rw [h0] at huv
    simp [updateVariantsOf] at huv
  have hstep : editVariantsStep pid vs { s with products := s.products.map (fun p =>
      if p.id = pid then applyBodyFields b none p else p) } =
      Except.error invalidVariantErr := by
    apply editVariantsStep_err pid vs _ uv huv
    intro w hw
    exact hmiss w hw
  unfold editProductById editProductT
  rw [show normalizeEdit norm none = Except.ok none from rfl, bindE_ok]
  simp only [hempty, Bool.false_and, Bool.false_eq_true, if_false, hupd, bindE_ok,
    hcs, hvs]
  rw [if_pos hvslen]
  simp only [hstep, bindE_err]

/-- Witness for C4 (amended): editing product 1 of `exStore2` with a variant
input claiming the nonexistent id 99 fails with the invalid-reference error
and returns the untouched store. -/
theorem variant_missing_id_rejected_witness :
    editProductById (fun i => some i) 1 none exBadVariantBody exStore2 =
      (exStore2, Except.error invalidVariantErr) :=
  variant_missing_id_rejected (fun i => some i) 1 exBadVariantBody exStore2
    [⟨some 99, "N", 5, 5⟩] ⟨some 99, "N", 5, 5⟩ (by decide) rfl rfl (by decide)
    (by decide)

/-! ### Claim C5 — which Product fields a mutation writes -/

/-- Claim C5 (code bug): the option key passed to `Product.create` and
`Product.update` is the misspelled `field:` rather than `fields:` (the same
file spells it correctly for the Variant calls), so the intended restriction
to name/description/image/isActive is inert and an input `createdAt` value
is written straight into the stored Product row on both create and edit. -/
theorem create_writes_createdAt_from_body :
    (createProduct (fun i => some i) (some 7) exCreatedAtBody exStore0).1.products =
      [⟨1, "x", "", some 7, true, 99, 0⟩] ∧
    (editProductById (fun i => some i) 1 none exCreatedAtBody exStore2).1.products =
      [⟨1, "x", "", none, true, 99, 0⟩, exProduct2] :=
  ⟨rfl, rfl⟩

/-! ### Claim C9 — image normalization on create -/

/-- Counterexample for C9 as stated: a create request without an image
upload *does* fail at the normalization step — `createProduct` dereferences
`req.file.buffer` unconditionally — contradicting "normalization is
performed only if an image upload is present". -/
theorem create_no_upload_fails_cex :
    createProduct (fun i => some i) none exCreatedAtBody exStore0 =
      (exStore0, Except.error sharpFileErr) := rfl

/-- Claim C9 (amended): on create the normalization step runs
unconditionally and before any write — a request with no upload fails right
there (the unconditional `req.file.buffer` dereference), and an upload whose
normalization fails aborts as well; in both cases the store is returned
untouched. -/
theorem create_normalization_unconditional (norm : Nat → Option Nat) (b : Body)
    (s : Store) :
    createProduct norm none b s = (s, Except.error sharpFileErr) ∧
    ∀ f, norm f = none →
      createProduct norm (some f) b s = (s, Except.error sharpNormErr) := by
  constructor
  · rfl
  · intro f hf
    simp only [createProduct, createProductT, normalizeCreate, hf, bindE_err]

/-- Witness for C9 (amended): a failing normalizer aborts the create of
`exCreatedAtBody` against the empty store, leaving it empty. -/
theorem create_normalization_unconditional_witness :
    createProduct (fun _ => none) (some 7) exCreatedAtBody exStore0 =
      (exStore0, Except.error sharpNormErr) :=
  (create_normalization_unconditional (fun _ => none) exCreatedAtBody exStore0).2 7 rfl

/-! ### Claim C2 — atomicity of `editProductById` -/

/-- Claim C2: whenever `editProductById` reports an error — in particular
when a variant update or create fails after the product row was already
updated inside the transaction — the returned store is exactly the store
the edit began with: the whole transaction rolls back and no partial state
is observable. -/
theorem edit_failure_rolls_back (norm : Nat → Option Nat) (pid : Nat)
    (file : Option Nat) (b : Body) (s : Store) (e : Err)
    (h : (editProductById norm pid file b s).2 = Except.error e) :
    (editProductById norm pid file b s).1 = s := by
  unfold editProductById at h ⊢
  cases hE : editProductT norm pid file b s with
  | ok r => rw [hE] at h; exact absurd h (by simp)
  | error e2 => rfl

/-- Witness for C2: editing product 1 of `exStore2` with a renamed name and
an invalid variant id fails after the product-row update, and the store is
returned unchanged. -/
theorem edit_failure_rolls_back_witness :
    (editProductById (fun i => some i) 1 none exBadVariantBody exStore2).1 = exStore2 :=
  edit_failure_rolls_back (fun i => some i) 1 none exBadVariantBody exStore2
    invalidVariantErr (by rfl)

/-! ### Claim C6 — empty edit payload -/

/-- Claim C6: an edit whose payload is empty (no body fields, no uploaded
file) fails with the InvalidInput error `'no data provided'` (400) before
any store write: the handler returns the untouched store. -/
theorem edit_empty_payload_rejected (norm : Nat → Option Nat) (pid : Nat)
    (b : Body) (s : Store) (hb : b.isEmpty = true) :
    editProductById norm pid none b s = (s, Except.error noDataErr) := by
  unfold editProductById editProductT normalizeEdit
  simp [hb, bindE_ok]

/-- Witness for C6: the empty body against `exStore2`. -/
theorem edit_empty_payload_rejected_witness :
    editProductById (fun i => some i) 1 none exEmptyBody exStore2 =
      (exStore2, Except.error noDataErr) :=
  edit_empty_payload_rejected (fun i => some i) 1 exEmptyBody exStore2 (by rfl)

end PosBE
